import Mathlib

/-!
Verification of the DomainSale library (domainsale/…) against its
natural-language specification.  The Python sources are shallowly embedded:
pure functions become Lean functions, exceptions become `Except DSError`,
the module-level caches and call counters become explicit state threading,
and the DNS / RDAP network layers become oracle values describing the
outcome the network would have produced.
-/

set_option maxRecDepth 100000

namespace DomainSale

/-- Embedding of the exception hierarchy of `domainsale/exceptions.py`.
Each constructor carries the message string the Python code passes to the
exception constructor (`str(e)` returns exactly that message). -/
inductive DSError where
  | dnssecValidation (msg : String)
  | timeout (msg : String)
  | schemaValidation (msg : String)
  | fieldValidation (msg : String)
  | sizeExceeded (msg : String)
  | rdapError (msg : String)
  | unexpected (msg : String)
deriving DecidableEq, Repr

/-- Model of str(e) on an embedded exception: the stored message. -/
def DSError.msg : DSError → String
  | .dnssecValidation m => m
  | .timeout m => m
  | .schemaValidation m => m
  | .fieldValidation m => m
  | .sizeExceeded m => m
  | .rdapError m => m
  | .unexpected m => m

/-- Values produced by Python `json.loads`.  Floating point literals are
kept symbolically (the validator never accepts a non-string field, so the
numeric value of a float never matters, only that it is not a `str`). -/
inductive PyJson where
  | null
  | bool (b : Bool)
  | int (n : Int)
  | float (lit : String)
  | str (s : String)
  | arr (items : List PyJson)
  | obj (entries : List (String × PyJson))
deriving Repr

mutual

def PyJson.beq : PyJson → PyJson → Bool
  | .null, .null => true
  | .bool a, .bool b => a = b
  | .int a, .int b => a = b
  | .float a, .float b => a = b
  | .str a, .str b => a = b
  | .arr a, .arr b => PyJson.beqList a b
  | .obj a, .obj b => PyJson.beqEntries a b
  | _, _ => false

def PyJson.beqList : List PyJson → List PyJson → Bool
  | [], [] => true
  | a :: as, b :: bs => PyJson.beq a b && PyJson.beqList as bs
  | _, _ => false

def PyJson.beqEntries : List (String × PyJson) → List (String × PyJson) → Bool
  | [], [] => true
  | (k1, v1) :: as, (k2, v2) :: bs =>
      k1 = k2 && PyJson.beq v1 v2 && PyJson.beqEntries as bs
  | _, _ => false

end

mutual

theorem PyJson.beq_eq : ∀ a b : PyJson, PyJson.beq a b = true → a = b
  | .null, .null, _ => rfl
  | .bool a, .bool b, h => by
      simp only [PyJson.beq, decide_eq_true_eq] at h; exact congrArg PyJson.bool h
  | .int a, .int b, h => by
      simp only [PyJson.beq, decide_eq_true_eq] at h; exact congrArg PyJson.int h
  | .float a, .float b, h => by
      simp only [PyJson.beq, decide_eq_true_eq] at h; exact congrArg PyJson.float h
  | .str a, .str b, h => by
      simp only [PyJson.beq, decide_eq_true_eq] at h; exact congrArg PyJson.str h
  | .arr a, .arr b, h => by
      simp only [PyJson.beq] at h
      exact congrArg PyJson.arr (PyJson.beqList_eq a b h)
  | .obj a, .obj b, h => by
      simp only [PyJson.beq] at h
      exact congrArg PyJson.obj (PyJson.beqEntries_eq a b h)

theorem PyJson.beqList_eq : ∀ a b : List PyJson, PyJson.beqList a b = true → a = b
  | [], [], _ => rfl
  | a :: as, b :: bs, h => by
      simp only [PyJson.beqList, Bool.and_eq_true] at h
      rw [PyJson.beq_eq a b h.1, PyJson.beqList_eq as bs h.2]

theorem PyJson.beqEntries_eq :
    ∀ a b : List (String × PyJson), PyJson.beqEntries a b = true → a = b
  | [], [], _ => rfl
  | (k1, v1) :: as, (k2, v2) :: bs, h => by
      simp only [PyJson.beqEntries, Bool.and_eq_true, decide_eq_true_eq] at h
      rw [h.1.1, PyJson.beq_eq v1 v2 h.1.2, PyJson.beqEntries_eq as bs h.2]

end

mutual

theorem PyJson.beq_rfl : ∀ a : PyJson, PyJson.beq a a = true
  | .null => rfl
  | .bool a => by simp [PyJson.beq]
  | .int a => by simp [PyJson.beq]
  | .float a => by simp [PyJson.beq]
  | .str a => by simp [PyJson.beq]
  | .arr a => by simp only [PyJson.beq]; exact PyJson.beqList_rfl a
  | .obj a => by simp only [PyJson.beq]; exact PyJson.beqEntries_rfl a

theorem PyJson.beqList_rfl : ∀ a : List PyJson, PyJson.beqList a a = true
  | [] => rfl
  | a :: as => by
      simp only [PyJson.beqList, Bool.and_eq_true]
      exact ⟨PyJson.beq_rfl a, PyJson.beqList_rfl as⟩

theorem PyJson.beqEntries_rfl :
    ∀ a : List (String × PyJson), PyJson.beqEntries a a = true
  | [] => rfl
  | (k, v) :: as => by
      simp only [PyJson.beqEntries, Bool.and_eq_true, decide_eq_true_eq]
      exact ⟨⟨by trivial, PyJson.beq_rfl v⟩, PyJson.beqEntries_rfl as⟩

end

instance : DecidableEq PyJson := fun a b =>
  if h : PyJson.beq a b = true then
    isTrue (PyJson.beq_eq a b h)
  else
    isFalse (fun he => h (he ▸ PyJson.beq_rfl a))

instance {ε α : Type} [DecidableEq ε] [DecidableEq α] :
    DecidableEq (Except ε α) := fun a b =>
  match a, b with
  | .ok x, .ok y =>
      if h : x = y then isTrue (by rw [h]) else
        isFalse (fun he => h (Except.ok.inj he))
  | .error x, .error y =>
      if h : x = y then isTrue (by rw [h]) else
        isFalse (fun he => h (Except.error.inj he))
  | .ok _, .error _ => isFalse (fun he => Except.noConfusion he)
  | .error _, .ok _ => isFalse (fun he => Except.noConfusion he)

/-! ### Model of Python `json.loads`

CPython's `json` module parses strict RFC-8259 JSON (plus `NaN`/`Infinity`
literals).  After decoding one value it skips whitespace and raises
`JSONDecodeError("Extra data…")` if characters remain.  A repeated key in
an object does NOT raise: `object_pairs` are folded into a `dict`, so the
last occurrence wins while the key keeps its first position. -/

/-- JSON whitespace accepted by the CPython scanner (`' ', '\t', '\n', '\r'`). -/
def jsonWs (c : Char) : Bool :=
  c = ' ' || c = '\t' || c = '\n' || c = '\r'

def skipWs : List Char → List Char
  | [] => []
  | c :: cs => if jsonWs c then skipWs cs else c :: cs

/-- Python dict insertion used while building an object: a repeated key replaces
the stored value in place (CPython dict semantics, last occurrence wins). -/
def insertLast (l : List (String × PyJson)) (k : String) (v : PyJson) :
    List (String × PyJson) :=
  match l with
  | [] => [(k, v)]
  | (k0, v0) :: rest =>
      if k0 = k then (k0, v) :: rest else (k0, v0) :: insertLast rest k v

def hexVal (c : Char) : Option Nat :=
  if '0' ≤ c ∧ c ≤ '9' then some (c.toNat - '0'.toNat)
  else if 'a' ≤ c ∧ c ≤ 'f' then some (c.toNat - 'a'.toNat + 10)
  else if 'A' ≤ c ∧ c ≤ 'F' then some (c.toNat - 'A'.toNat + 10)
  else none

/-- Body of a JSON string literal, after the opening quote.  Mirrors the
CPython scanner: backslash escapes, `\uXXXX`, and a hard error on raw
control characters below `0x20`. -/
def parseStringBody : Nat → List Char → Except String (List Char × List Char)
  | 0, _ => .error "Unterminated string starting at"
  | _ + 1, [] => .error "Unterminated string starting at"
  | fuel + 1, c :: cs =>
    if c = '"' then .ok ([], cs)
    else if c = '\\' then
      match cs with
      | [] => .error "Unterminated string starting at"
      | e :: cs2 =>
        if e = 'u' then
          match cs2 with
          | h1 :: h2 :: h3 :: h4 :: cs3 =>
            match hexVal h1, hexVal h2, hexVal h3, hexVal h4 with
            | some a, some b, some c1, some d =>
              let n := ((a * 16 + b) * 16 + c1) * 16 + d
              match parseStringBody fuel cs3 with
              | .ok (body, rest) =>
                  .ok ((if h : n.isValidChar then Char.ofNatAux n h
                        else Char.ofNat 0xFFFD) :: body, rest)
              | .error m => .error m
            | _, _, _, _ => .error "Invalid \\uXXXX escape"
          | _ => .error "Invalid \\uXXXX escape"
        else
          let dec : Option Char :=
            if e = '"' then some '"'
            else if e = '\\' then some '\\'
            else if e = '/' then some '/'
            else if e = 'b' then some (Char.ofNat 8)
            else if e = 'f' then some (Char.ofNat 12)
            else if e = 'n' then some '\n'
            else if e = 'r' then some '\r'
            else if e = 't' then some '\t'
            else none
          match dec with
          | some r =>
            match parseStringBody fuel cs2 with
            | .ok (body, rest) => .ok (r :: body, rest)
            | .error m => .error m
          | none => .error "Invalid \\escape"
    else if c.toNat < 0x20 then .error "Invalid control character"
    else
      match parseStringBody fuel cs with
      | .ok (body, rest) => .ok (c :: body, rest)
      | .error m => .error m

def spanDigits (cs : List Char) : List Char × List Char :=
  match cs with
  | [] => ([], [])
  | c :: rest =>
      if c.isDigit then
        let (ds, tail) := spanDigits rest
        (c :: ds, tail)
      else ([], cs)

def digitsToNat (ds : List Char) : Nat :=
  ds.foldl (fun n c => n * 10 + (c.toNat - '0'.toNat)) 0

/-- JSON number, CPython `NUMBER_RE`:
`(-?(?:0|[1-9]\d*))(\.\d+)?([eE][-+]?\d+)?`.  A fractional part or an
exponent makes the result a Python `float` (kept as its literal text). -/
def parseNumber (cs : List Char) : Except String (PyJson × List Char) :=
  let (neg, cs1) :=
    match cs with
    | '-' :: rest => (true, rest)
    | _ => (false, cs)
  match cs1 with
  | [] => .error "Expecting value"
  | d :: rest =>
    if ¬ d.isDigit then .error "Expecting value"
    else
      -- integer part: 0, or [1-9] followed by digits
      let (intDs, afterInt) :=
        if d = '0' then ([d], rest)
        else
          let (ds, tail) := spanDigits rest
          (d :: ds, tail)
      let (fracDs, afterFrac) :=
        match afterInt with
        | '.' :: fs =>
          let (ds, tail) := spanDigits fs
          if ds.isEmpty then ([], afterInt) else ('.' :: ds, tail)
        | _ => ([], afterInt)
      let (expDs, afterExp) :=
        match afterFrac with
        | e :: es =>
          if e = 'e' ∨ e = 'E' then
            let (sgn, es1) :=
              match es with
              | s :: ss => if s = '+' ∨ s = '-' then ([s], ss) else ([], es)
              | [] => ([], es)
            let (ds, tail) := spanDigits es1
            if ds.isEmpty then ([], afterFrac) else (e :: (sgn ++ ds), tail)
          else ([], afterFrac)
        | [] => ([], afterFrac)
      if fracDs.isEmpty ∧ expDs.isEmpty then
        let n : Int := Int.ofNat (digitsToNat intDs)
        .ok (.int (if neg then -n else n), afterExp)
      else
        let lit := (if neg then ['-'] else []) ++ intDs ++ fracDs ++ expDs
        .ok (.float (String.mk lit), afterExp)

mutual

/-- One JSON value at the head of the input (whitespace already skipped). -/
def parseValue : Nat → List Char → Except String (PyJson × List Char)
  | 0, _ => .error "fuel exhausted"
  | fuel + 1, cs =>
    match cs with
    | [] => .error "Expecting value"
    | c :: rest =>
      if c = '"' then
        match parseStringBody (rest.length + 1) rest with
        | .ok (body, rest2) => .ok (.str (String.mk body), rest2)
        | .error m => .error m
      else if c = '\x7b' then
        match skipWs rest with
        | '\x7d' :: rest2 => .ok (.obj [], rest2)
        | cs2 => parseObjRest fuel [] cs2
      else if c = '[' then
        match skipWs rest with
        | ']' :: rest2 => .ok (.arr [], rest2)
        | cs2 => parseArrRest fuel [] cs2
      else if ['t', 'r', 'u', 'e'].isPrefixOf cs then
        .ok (.bool true, cs.drop 4)
      else if ['f', 'a', 'l', 's', 'e'].isPrefixOf cs then
        .ok (.bool false, cs.drop 5)
      else if ['n', 'u', 'l', 'l'].isPrefixOf cs then
        .ok (.null, cs.drop 4)
      else if ['N', 'a', 'N'].isPrefixOf cs then
        .ok (.float "nan", cs.drop 3)
      else if ['I', 'n', 'f', 'i', 'n', 'i', 't', 'y'].isPrefixOf cs then
        .ok (.float "inf", cs.drop 8)
      else if ['-', 'I', 'n', 'f', 'i', 'n', 'i', 't', 'y'].isPrefixOf cs then
        .ok (.float "-inf", cs.drop 9)
      else
        parseNumber cs

/-- Members of an object after the opening brace (first key expected at the head). -/
def parseObjRest (fuel : Nat) (entries : List (String × PyJson))
    (cs : List Char) : Except String (PyJson × List Char) :=
  match fuel with
  | 0 => .error "fuel exhausted"
  | fuel + 1 =>
    match cs with
    | '"' :: rest =>
      match parseStringBody (rest.length + 1) rest with
      | .error m => .error m
      | .ok (keyChars, rest2) =>
        match skipWs rest2 with
        | ':' :: rest3 =>
          match parseValue fuel (skipWs rest3) with
          | .error m => .error m
          | .ok (v, rest4) =>
            let entries2 := insertLast entries (String.mk keyChars) v
            match skipWs rest4 with
            | ',' :: rest5 => parseObjRest fuel entries2 (skipWs rest5)
            | '\x7d' :: rest5 => .ok (.obj entries2, rest5)
            | _ => .error "Expecting ',' delimiter"
        | _ => .error "Expecting ':' delimiter"
    | _ => .error "Expecting property name enclosed in double quotes"

/-- Elements of an array after `[` (first element expected at the head). -/
def parseArrRest (fuel : Nat) (items : List PyJson) (cs : List Char) :
    Except String (PyJson × List Char) :=
  match fuel with
  | 0 => .error "fuel exhausted"
  | fuel + 1 =>
    match parseValue fuel cs with
    | .error m => .error m
    | .ok (v, rest) =>
      match skipWs rest with
      | ',' :: rest2 => parseArrRest fuel (items ++ [v]) (skipWs rest2)
      | ']' :: rest2 => .ok (.arr (items ++ [v]), rest2)
      | _ => .error "Expecting ',' delimiter"

end

/-- Model of `json.loads`: skip whitespace, decode one value, skip
whitespace, and fail with `Extra data` if anything remains.  The fuel
`4 * (length + 1)` strictly dominates the recursion depth (every unit of
fuel spent is matched by at least half a consumed character). -/
def pyJsonLoads (s : String) : Except String PyJson :=
  match parseValue (4 * (s.data.length + 1)) (skipWs s.data) with
  | .error m => .error m
  | .ok (v, rest) =>
      if (skipWs rest).isEmpty then .ok v else .error "Extra data"

/-! ### Model of `urllib.parse.urlparse` (CPython ≥ 3.11.4)

`urlsplit` lstrips C0-control/space characters, deletes every tab, CR and
LF, recognises a scheme only when the text before the first `:` starts
with an ASCII letter and consists of letters, digits, `+`, `-`, `.` —
and then LOWERCASES it.  `urlparse` additionally splits `;params` off the
path.  Mismatched `[`/`]` in the netloc raise `ValueError`. -/

structure UrlParts where
  scheme : String
  netloc : String
  path : String
deriving DecidableEq, Repr

def isSchemeChar (c : Char) : Bool :=
  c.isAlpha || c.isDigit || c = '+' || c = '-' || c = '.'

def listFindIdx (p : Char → Bool) : List Char → Option Nat
  | [] => none
  | c :: cs =>
      if p c then some 0 else (listFindIdx p cs).map (· + 1)

/-- Search in the style of str.rfind: index of the last occurrence. -/
def listRfindIdx (p : Char → Bool) (cs : List Char) : Option Nat :=
  (listFindIdx p cs.reverse).map (fun i => cs.length - 1 - i)

def splitAtChar (cs : List Char) (c : Char) : List Char × List Char :=
  match listFindIdx (· = c) cs with
  | some i => (cs.take i, cs.drop (i + 1))
  | none => (cs, [])

def lowerAscii (cs : List Char) : List Char := cs.map Char.toLower

/-- Model of urllib.parse.uses_params: only these schemes get params split off
the path by `urlparse` (notably `mailto` does not). -/
def usesParams : List String :=
  ["", "ftp", "hdl", "prospero", "http", "imap", "https", "shttp", "rtsp",
   "rtspu", "sip", "sips", "mms", "sftp", "tel"]

/-- Fragment, query and (conditionally) params removal from the rest of
the URL, leaving `ParseResult.path`. -/
def splitPathPart (scheme : String) (cs : List Char) : List Char :=
  let (beforeFrag, _) := splitAtChar cs '#'
  let (beforeQuery, _) := splitAtChar beforeFrag '?'
  if usesParams.contains scheme && beforeQuery.contains ';' then
    match listRfindIdx (· = '/') beforeQuery with
    | some j =>
      match listFindIdx (· = ';') (beforeQuery.drop j) with
      | some k => beforeQuery.take (j + k)
      | none => beforeQuery
    | none =>
      match listFindIdx (· = ';') beforeQuery with
      | some k => beforeQuery.take k
      | none => beforeQuery
  else beforeQuery

def urlparseModel (url : String) : Except String UrlParts :=
  -- url = url.lstrip(_WHATWG_C0_CONTROL_OR_SPACE); remove "\t", "\r", "\n"
  let cs := ((url.data.dropWhile (fun c => c.toNat ≤ 0x20)).filter
      (fun c => ¬ (c = '\t' ∨ c = '\r' ∨ c = '\n')))
  -- scheme recognition and lowercasing
  let (scheme, rest) :=
    match listFindIdx (· = ':') cs with
    | some i =>
        let firstAsciiAlpha : Bool :=
          match cs with
          | c0 :: _ => decide (c0.toNat < 128) && c0.isAlpha
          | [] => false
        if decide (0 < i) && firstAsciiAlpha && (cs.take i).all isSchemeChar then
          (lowerAscii (cs.take i), cs.drop (i + 1))
        else ([], cs)
    | none => ([], cs)
  -- netloc: present iff rest starts with `//`, up to the next `/`, `?`, `#`
  match rest with
  | '/' :: '/' :: rest2 =>
    let nIdx := (listFindIdx (fun c => c = '/' ∨ c = '?' ∨ c = '#') rest2).getD
        rest2.length
    let netloc := rest2.take nIdx
    let afterNet := rest2.drop nIdx
    if (netloc.contains '[' ∧ ¬ netloc.contains ']') ∨
        (netloc.contains ']' ∧ ¬ netloc.contains '[') then
      .error "Invalid IPv6 URL"
    else
      .ok ⟨String.mk scheme, String.mk netloc,
           String.mk (splitPathPart (String.mk scheme) afterNet)⟩
  | _ =>
    .ok ⟨String.mk scheme, "",
         String.mk (splitPathPart (String.mk scheme) rest)⟩

/-- The parsed scheme when `urlparse` does not raise. -/
def urlSchemeOf (u : String) : Option String :=
  match urlparseModel u with
  | .ok p => some p.scheme
  | .error _ => none

/-! ### Model of `domainsale/validator.py` -/

/-- Byte length of the UTF-8 encoding of a string (len of s.encode). -/
def utf8CharLen (c : Char) : Nat :=
  if c.toNat < 0x80 then 1
  else if c.toNat < 0x800 then 2
  else if c.toNat < 0x10000 then 3
  else 4

def utf8Len (s : String) : Nat :=
  s.data.foldl (fun n c => n + utf8CharLen c) 0

/-- Model of Python s.startswith(pre). -/
def pyStartswith (s pre : String) : Bool :=
  pre.data.isPrefixOf s.data

/-- Python slicing s[n:] for a non-negative index. -/
def pyDrop (s : String) (n : Nat) : String :=
  String.mk (s.data.drop n)

def MAX_TXT_SIZE : Nat := 255

def VERSION_TAG : String := "v=FORSALE1;"

def REQUIRED_FIELDS : List String := ["v", "price", "url", "contact"]

def OPTIONAL_FIELDS : List String := ["expires"]

def ALLOWED_FIELDS : List String := REQUIRED_FIELDS ++ OPTIONAL_FIELDS

def ALLOWED_URL_SCHEMES : List String := ["https"]

def ALLOWED_CONTACT_SCHEMES : List String := ["mailto"]

def isDigitCh (c : Char) : Bool := '0' ≤ c ∧ c ≤ '9'

def isUpperAZ (c : Char) : Bool := 'A' ≤ c ∧ c ≤ 'Z'

/-- A Python `re` `$` matches at the end of the string or just before a
single trailing newline. -/
def reDollar (cs : List Char) : Bool :=
  cs = [] ∨ cs = ['\n']

/-- The price regex of the validator, via re.match (anchored): three
uppercase ASCII letters, a colon, one or more digits, optionally a dot
followed by one or two digits. -/
def price_pattern_match (s : String) : Bool :=
  match s.data with
  | a :: b :: c :: ':' :: rest =>
    isUpperAZ a && isUpperAZ b && isUpperAZ c &&
      (let (ds, tail) := spanDigits rest
       ¬ ds.isEmpty &&
         (match tail with
          | '.' :: fs =>
            let (fds, tail2) := spanDigits fs
            decide (1 ≤ fds.length ∧ fds.length ≤ 2) && reDollar tail2
          | t => reDollar t))
  | _ => false

/-- The date regex of the validator, via re.match (anchored): four
digits, a dash, two digits, a dash, two digits. -/
def date_pattern_match (s : String) : Bool :=
  match s.data with
  | y1 :: y2 :: y3 :: y4 :: '-' :: m1 :: m2 :: '-' :: d1 :: d2 :: tail =>
    isDigitCh y1 && isDigitCh y2 && isDigitCh y3 && isDigitCh y4 &&
      isDigitCh m1 && isDigitCh m2 && isDigitCh d1 && isDigitCh d2 &&
      reDollar tail
  | _ => false

structure PyDate where
  year : Nat
  month : Nat
  day : Nat
deriving DecidableEq, Repr

def PyDate.lt (a b : PyDate) : Bool :=
  a.year < b.year ∨ (a.year = b.year ∧
    (a.month < b.month ∨ (a.month = b.month ∧ a.day < b.day)))

def isLeapYear (y : Nat) : Bool :=
  (y % 4 = 0 ∧ y % 100 ≠ 0) ∨ y % 400 = 0

def daysInMonth (y m : Nat) : Nat :=
  if m = 2 then (if isLeapYear y then 29 else 28)
  else if m = 4 ∨ m = 6 ∨ m = 9 ∨ m = 11 then 30
  else 31

/-- Model of datetime.strptime(s, "%Y-%m-%d").date(): exactly ten characters
(no trailing newline survives strptime), a real proleptic-Gregorian
calendar date, year within the MINYEAR..MAXYEAR range of datetime. -/
def strptimeDate (s : String) : Option PyDate :=
  match s.data with
  | [y1, y2, y3, y4, '-', m1, m2, '-', d1, d2] =>
    if isDigitCh y1 ∧ isDigitCh y2 ∧ isDigitCh y3 ∧ isDigitCh y4 ∧
        isDigitCh m1 ∧ isDigitCh m2 ∧ isDigitCh d1 ∧ isDigitCh d2 then
      let y := digitsToNat [y1, y2, y3, y4]
      let m := digitsToNat [m1, m2]
      let d := digitsToNat [d1, d2]
      if 1 ≤ y ∧ 1 ≤ m ∧ m ≤ 12 ∧ 1 ≤ d ∧ d ≤ daysInMonth y m then
        some ⟨y, m, d⟩
      else none
    else none
  | _ => none

/-- Python `str(value)` for the values that can appear in an f-string
interpolation of a JSON-decoded field (message fidelity is best-effort
for non-string values; the theorems below never depend on it). -/
def pyStrOf : PyJson → String
  | .null => "None"
  | .bool true => "True"
  | .bool false => "False"
  | .int n => toString n
  | .float lit => lit
  | .str s => s
  | .arr _ => "[...]"
  | .obj _ => "\x7b...\x7d"

/-- Model of ForSaleValidator._validate_url.  Both raises in the try are caught by
the function's own `except Exception` and re-wrapped, so every failure
message carries the `Invalid URL: ` prefix. -/
def validate_url (url : String) : Except DSError Unit :=
  match urlparseModel url with
  | .error m => .error (.fieldValidation ("Invalid URL: " ++ m))
  | .ok p =>
    if ¬ ALLOWED_URL_SCHEMES.contains p.scheme then
      .error (.fieldValidation ("Invalid URL: Invalid URL scheme: " ++
        p.scheme ++ ". Must be one of: https"))
    else if p.netloc = "" then
      .error (.fieldValidation "Invalid URL: URL must contain a domain")
    else .ok ()

/-- Model of ForSaleValidator._validate_contact (with the same re-wrapping
behind an added prefix of the message, as for URLs). -/
def validate_contact (contact : String) : Except DSError Unit :=
  match urlparseModel contact with
  | .error m => .error (.fieldValidation ("Invalid contact: " ++ m))
  | .ok p =>
    if ¬ ALLOWED_CONTACT_SCHEMES.contains p.scheme then
      .error (.fieldValidation ("Invalid contact: Invalid contact scheme: " ++
        p.scheme ++ ". Must be one of: mailto"))
    else if p.scheme = "mailto" ∧ p.path = "" then
      .error
        (.fieldValidation "Invalid contact: mailto: URI must contain an email address")
    else .ok ()

/-- Model of ForSaleValidator._validate_expires.  The format raise sits outside
the `try`, the strptime `ValueError` is wrapped, and the past-date raise
passes through the `except ValueError` untouched. -/
def validate_expires (today : PyDate) (expires : String) : Except DSError Unit :=
  if ¬ date_pattern_match expires then
    .error (.fieldValidation ("Invalid expires format: " ++ expires ++
      ". Must be in format \x27YYYY-MM-DD\x27"))
  else
    match strptimeDate expires with
    | none => .error (.fieldValidation "Invalid expires date: ValueError")
    | some d =>
      if PyDate.lt d today then
        .error (.fieldValidation ("Expires date is in the past: " ++ expires))
      else .ok ()

def dictLookup (l : List (String × PyJson)) (k : String) : Option PyJson :=
  match l with
  | [] => none
  | (k0, v) :: rest => if k0 = k then some v else dictLookup rest k

def dictContains (l : List (String × PyJson)) (k : String) : Bool :=
  (dictLookup l k).isSome

/-- Model of ForSaleValidator._validate_schema, returning the entries so the
callers can stay total (the source re-checks `isinstance(record, dict)`). -/
def validate_schema (record : PyJson) :
    Except DSError (List (String × PyJson)) :=
  match record with
  | .obj entries =>
    match REQUIRED_FIELDS.find? (fun f => ¬ dictContains entries f) with
    | some f => .error (.schemaValidation ("Missing required field: " ++ f))
    | none =>
      match (entries.map Prod.fst).find? (fun k => ¬ ALLOWED_FIELDS.contains k) with
      | some k => .error (.schemaValidation ("Unknown field: " ++ k))
      | none => .ok entries
  | _ => .error (.schemaValidation "Record must be a JSON object")

/-- Model of ForSaleValidator._validate_fields.  A non-string `price` or
`expires` makes the stdlib raise a `TypeError` that only the outer
`except Exception` of `extract_and_validate_record` catches (hence
`SchemaValidationError`); a non-string `url`/`contact` blows up inside
the local handler of all exceptions inside the URL and contact checks (hence
`FieldValidationError`). -/
def validate_fields (today : PyDate) (entries : List (String × PyJson)) :
    Except DSError Unit := do
  -- if record["v"] != "1"
  match dictLookup entries "v" with
  | none => throw (.schemaValidation "Error validating TXT record: KeyError")
  | some v =>
    if v ≠ PyJson.str "1" then
      throw (.fieldValidation ("Invalid version: " ++ pyStrOf v))
  -- price regex
  match dictLookup entries "price" with
  | none => throw (.schemaValidation "Error validating TXT record: KeyError")
  | some (.str p) =>
    if ¬ price_pattern_match p then
      throw (.fieldValidation ("Invalid price format: " ++ p ++
        ". Must be in format \x27CUR:AMOUNT\x27 (e.g., \x27USD:1000\x27)"))
  | some _ => throw (.schemaValidation "Error validating TXT record: TypeError")
  -- url
  match dictLookup entries "url" with
  | none => throw (.schemaValidation "Error validating TXT record: KeyError")
  | some (.str u) => validate_url u
  | some _ => throw (.fieldValidation "Invalid URL: TypeError")
  -- contact
  match dictLookup entries "contact" with
  | none => throw (.schemaValidation "Error validating TXT record: KeyError")
  | some (.str c) => validate_contact c
  | some _ => throw (.fieldValidation "Invalid contact: TypeError")
  -- expires, if present
  match dictLookup entries "expires" with
  | none => pure ()
  | some (.str e) => validate_expires today e
  | some _ => throw (.schemaValidation "Error validating TXT record: TypeError")

/-- Model of ForSaleValidator.extract_and_validate_record: size gate, version-tag
gate (absence is `None`, not an error), `json.loads`, schema gate, field
gates.  `json.JSONDecodeError` is re-raised as `SchemaValidationError`. -/
def extract_and_validate_record (today : PyDate) (txt_record : String) :
    Except DSError (Option (List (String × PyJson))) :=
  if utf8Len txt_record > MAX_TXT_SIZE then
    .error (.sizeExceeded ("TXT record exceeds maximum size of " ++
      toString MAX_TXT_SIZE ++ " bytes"))
  else if ¬ pyStartswith txt_record VERSION_TAG then
    .ok none
  else
    -- json_content = txt_record[len(VERSION_TAG):]
    match pyJsonLoads (pyDrop txt_record VERSION_TAG.data.length) with
    | .error m =>
        .error (.schemaValidation ("Failed to parse JSON content: " ++ m))
    | .ok record =>
      match validate_schema record with
      | .error e => .error e
      | .ok entries =>
        match validate_fields today entries with
        | .error e => .error e
        | .ok () => .ok (some entries)

/-! ### Model of `domainsale/renderer.py` (HTML renderer)

`html.escape(text, quote=True)` performs the five replacements
ampersand, then angle brackets, then double and single quotes, in that
order; since no replacement output contains a character replaced by a
later step, the sequence is equivalent to the character-wise map below. -/

def escapeChar (c : Char) : List Char :=
  if c = '&' then "&amp;".data
  else if c = '<' then "&lt;".data
  else if c = '>' then "&gt;".data
  else if c = '"' then "&quot;".data
  else if c = Char.ofNat 39 then "&#x27;".data
  else [c]

def escapeList : List Char → List Char
  | [] => []
  | c :: cs => escapeChar c ++ escapeList cs

/-- Model of HTMLRenderer._escape, that is html.escape(text, quote=True). -/
def html_escape (s : String) : String :=
  String.mk (escapeList s.data)

/-- The fields of the dictionary handed to `render_sale_info`
(`DomainSaleResponse.to_dict()` restricted to the keys the renderer
reads).  `none` models both an absent key and a `None`/empty value where
Python tests truthiness; for `domain` the source tests key presence. -/
structure SaleInfo where
  domain : Option String
  price : Option String
  contact : Option String
  url : Option String
  expires : Option String
deriving DecidableEq, Repr

/-- Python truthiness of `sale_info.get(key)` for an optional string. -/
def truthy : Option String → Bool
  | some s => s ≠ ""
  | none => false

/-- The newline join of a list of lines. -/
def joinLines : List String → String
  | [] => ""
  | [l] => l
  | l :: ls => l ++ "\n" ++ joinLines ls

def domainLines (d : Option String) : List String :=
  match d with
  | some v => ["<h2>Domain for Sale: " ++ html_escape v ++ "</h2>"]
  | none => ["<h2>Domain for Sale</h2>"]

def priceLines (p : Option String) : List String :=
  if truthy p then
    ["<div class=\"sale-price\"><strong>Price:</strong> " ++
      html_escape (p.getD "") ++ "</div>"]
  else []

/-- Contact rendering: the source escapes the contact, tests the ESCAPED
string for the `mailto:` prefix, and escapes the tail a second time for
the link text. -/
def contactLines (c : Option String) : List String :=
  if truthy c then
    let contact := html_escape (c.getD "")
    if pyStartswith contact "mailto:" then
      ["<div class=\"sale-contact\"><strong>Contact:</strong> " ++
        "<a href=\"" ++ contact ++ "\">" ++
        html_escape (pyDrop contact 7) ++ "</a></div>"]
    else
      ["<div class=\"sale-contact\"><strong>Contact:</strong> " ++ contact ++
        "</div>"]
  else []

def urlLines (u : Option String) : List String :=
  if truthy u then
    let url := html_escape (u.getD "")
    ["<div class=\"sale-url\"><strong>More Info:</strong> " ++
      "<a href=\"" ++ url ++ "\" target=\"_blank\" rel=\"noopener noreferrer\">" ++
      url ++ "</a></div>"]
  else []

def expiresLines (e : Option String) : List String :=
  if truthy e then
    ["<div class=\"sale-expires\"><strong>Expires:</strong> " ++
      html_escape (e.getD "") ++ "</div>"]
  else []

/-- Model of HTMLRenderer.render_sale_info. -/
def render_sale_info (info : SaleInfo) : String :=
  joinLines (domainLines info.domain ++ ["<div class=\"domain-sale-info\">"] ++
    priceLines info.price ++ contactLines info.contact ++ urlLines info.url ++
    expiresLines info.expires ++ ["</div>"])

/-- Model of HTMLRenderer.render_error. -/
def render_error (error_message : String) : String :=
  "<div class=\"domain-sale-error\">" ++ html_escape error_message ++ "</div>"

/-- The characters that can change the markup structure of the generated
document: open a tag (`<`), close one (`>`), or terminate a quoted
attribute value (a double or single quote). -/
def isMarkupChar (c : Char) : Bool :=
  c = '<' || c = '>' || c = '"' || c = Char.ofNat 39

def markupCount (s : String) : Nat :=
  s.data.countP isMarkupChar

/-- Replacing every interpolated value by a harmless placeholder of the
same rendering shape: this is what the output's markup skeleton is
compared against. -/
def eraseValues (info : SaleInfo) : SaleInfo where
  domain := info.domain.map fun _ => "x"
  price := if truthy info.price then some "x" else none
  contact :=
    if truthy info.contact then
      if pyStartswith (html_escape (info.contact.getD "")) "mailto:" then
        some "mailto:x"
      else some "x"
    else none
  url := if truthy info.url then some "x" else none
  expires := if truthy info.expires then some "x" else none

/-! ### Model of `domainsale/cache.py`

`time.time()` becomes an explicit `now : Nat` argument.  The backing
`dict` becomes an association list with unique keys; `_cache[key] = v`
keeps the position of an existing key. -/

structure PyCache (α : Type) where
  ttl : Nat
  entries : List (String × α × Nat)
deriving Repr

def cacheFind {α : Type} (l : List (String × α × Nat)) (k : String) :
    Option (α × Nat) :=
  match l with
  | [] => none
  | (k0, v, e) :: rest => if k0 = k then some (v, e) else cacheFind rest k

def cacheDel {α : Type} (l : List (String × α × Nat)) (k : String) :
    List (String × α × Nat) :=
  match l with
  | [] => []
  | (k0, v, e) :: rest =>
      if k0 = k then rest else (k0, v, e) :: cacheDel rest k

def cacheStore {α : Type} (l : List (String × α × Nat)) (k : String)
    (v : α) (e : Nat) : List (String × α × Nat) :=
  match l with
  | [] => [(k, v, e)]
  | (k0, v0, e0) :: rest =>
      if k0 = k then (k0, v, e) :: rest else (k0, v0, e0) :: cacheStore rest k v e

/-- Model of Cache.get: a hit requires `time.time() < expiry` (strictly); an
expired entry is deleted and the read is a miss. -/
def PyCache.get {α : Type} (c : PyCache α) (key : String) (now : Nat) :
    Option α × PyCache α :=
  match cacheFind c.entries key with
  | some (v, expiry) =>
      if now < expiry then (some v, c)
      else (none, { c with entries := cacheDel c.entries key })
  | none => (none, c)

/-- Model of Cache.set: stores `(value, now + ttl)`. -/
def PyCache.store {α : Type} (c : PyCache α) (key : String) (v : α)
    (now : Nat) : PyCache α :=
  { c with entries := cacheStore c.entries key v (now + c.ttl) }

/-- The `cached(cache, key_func)` wrapper applied to a call whose
underlying computation would produce `thunk`.  Returns the result, the
updated cache, and whether the underlying function was invoked.  An
exception from the wrapped function propagates before `cache.set` runs,
so nothing is stored on failure. -/
def cachedCall {α : Type} (c : PyCache α) (key : String)
    (thunk : Except DSError α) (now : Nat) :
    Except DSError α × PyCache α × Bool :=
  match c.get key now with
  | (some v, c1) => (.ok v, c1, false)
  | (none, c1) =>
    match thunk with
    | .error e => (.error e, c1, true)
    | .ok v => (.ok v, c1.store key v now, true)

/-! ### Model of `domainsale/resolver.py`

The network outcome of `resolver.resolve(name, TXT)` is an oracle value.
`answers` carries, per RRSet item, the UTF-8 decoding of
the joined TXT character strings decoded as UTF-8; `decodeFailure` models a payload on which the
UTF-8 decode itself raises. -/

inductive DnsOutcome where
  | answers (rrsets : List String)
  | noAnswer
  | nxdomain
  | timedOut
  | resolveFailure (msg : String)
  | decodeFailure (msg : String)
deriving DecidableEq, Repr

/-- Model of DNSSecResolver.lookup_for_sale_record (together with
`_lookup_with_dnssec`, which wraps every unexpected `resolve` exception —
including `dns.dnssec.ValidationFailure` — into `DNSSECValidationError`,
making the outer `except dns.dnssec.ValidationFailure` arm dead code).
Oversized payloads are silently dropped (`continue`). -/
def lookup_for_sale_record (domain : String) (out : DnsOutcome) :
    Except DSError (List String × List String) :=
  match out with
  | .answers ss =>
      .ok (ss.filter (fun s => ¬ utf8Len s > MAX_TXT_SIZE), ["dns"])
  | .noAnswer => .ok ([], ["dns"])
  | .nxdomain => .ok ([], ["dns"])
  | .timedOut => .error (.timeout ("DNS query for " ++ domain ++ " timed out"))
  | .resolveFailure m =>
      .error (.dnssecValidation ("DNS lookup or DNSSEC validation failed for " ++
        "_for-sale." ++ domain ++ ": " ++ m))
  | .decodeFailure m => .error (.unexpected m)

/-! ### Model of `domainsale/api.py` -/

def DEFAULT_CACHE_TTL : Nat := 300

structure DomainSaleOptions where
  enable_rdap_check : Bool := false
  cache_ttl : Nat := DEFAULT_CACHE_TTL
  timeout : Nat := 5
deriving DecidableEq, Repr

/-- Model of DomainSaleResponse.  The field `source` is a union of str and list in the
source, embedded as a sum; the constructor default is the SCALAR
string `"dns"`. -/
structure DomainSaleResponse where
  domain : String
  for_sale : Bool := false
  price : Option String := none
  url : Option String := none
  contact : Option String := none
  expires : Option String := none
  source : String ⊕ List String := Sum.inl "dns"
  errors : List String := []
deriving DecidableEq, Repr

/-- The module-level mutable state of `api.py`: the two cache instances,
plus instrumentation counting how often the underlying DNS lookup and
RDAP check actually ran. -/
structure ApiState where
  dnsCache : PyCache (List String × List String)
  rdapCache : PyCache Bool
  dnsCalls : Nat := 0
  rdapCalls : Nat := 0
deriving Repr

/-- The state right after `import domainsale.api`. -/
def initialApiState : ApiState where
  dnsCache := { ttl := DEFAULT_CACHE_TTL, entries := [] }
  rdapCache := { ttl := DEFAULT_CACHE_TTL, entries := [] }

/-- Lines 162–165 of `api.py`: the TTL of both module-level caches is
overwritten only when the option differs from the default. -/
def updateTtl (options : DomainSaleOptions) (st : ApiState) : ApiState :=
  if options.cache_ttl ≠ DEFAULT_CACHE_TTL then
    { st with dnsCache := { st.dnsCache with ttl := options.cache_ttl },
              rdapCache := { st.rdapCache with ttl := options.cache_ttl } }
  else st

/-- Truthiness of the Python `record_data` variable (`None` and the empty
dict are falsy). -/
def dictTruthy : Option (List (String × PyJson)) → Bool
  | some r => ¬ r.isEmpty
  | none => false

/-- The per-record loop of `get_domain_sale_status`: validation errors are
collected as `str(e)` and scanning continues; a truthy record breaks. -/
def recordLoop (today : PyDate) (rd : Option (List (String × PyJson)))
    (errs : List String) :
    List String → Option (List (String × PyJson)) × List String
  | [] => (rd, errs)
  | t :: rest =>
    match extract_and_validate_record today t with
    | .ok v => if dictTruthy v then (v, errs) else recordLoop today v errs rest
    | .error e => recordLoop today rd (errs ++ [e.msg]) rest

/-- The `except` arms at the bottom of `get_domain_sale_status`. -/
def apiCatch : DSError → String
  | .dnssecValidation m => "DNSSEC validation failed: " ++ m
  | .timeout m => "Timeout: " ++ m
  | e => "Unexpected error: " ++ e.msg

def dictGetStr (entries : List (String × PyJson)) (k : String) :
    Option String :=
  match dictLookup entries k with
  | some (.str s) => some s
  | _ => none

/-- Lines 208–214: populate the success response.  After field validation
every requested field is a JSON string. -/
def fillSale (r : DomainSaleResponse) (entries : List (String × PyJson))
    (errs : List String) (sources : List String) : DomainSaleResponse :=
  { r with
      for_sale := true
      price := dictGetStr entries "price"
      url := dictGetStr entries "url"
      contact := dictGetStr entries "contact"
      expires := dictGetStr entries "expires"
      source := Sum.inr sources
      errors := errs }

/-- The statement sources.append of the rdap tag acts on the very list object that the cached
tuple in `dns_cache` holds (the `cached` wrapper returned the stored
tuple itself), so the append is also visible in the cache entry, whose
expiry instant is untouched. -/
def appendRdapInCache (c : PyCache (List String × List String))
    (key : String) : PyCache (List String × List String) :=
  { c with entries := c.entries.map (fun p =>
      if p.1 = key then (p.1, (p.2.1.1, p.2.1.2 ++ ["rdap"]), p.2.2) else p) }

/-- Model of get_domain_sale_status(domain, options).  The network layers are
oracles: `dns` is what `resolver.resolve` would observe, `rdap` the
outcome of `RDAPClient.check_for_sale_status`.  `today` feeds the
`expires` comparison and `now` the cache clock; the returned pair is the
response together with the module state after the call. -/
def get_domain_sale_status (domain : String) (options : DomainSaleOptions)
    (today : PyDate) (dns : DnsOutcome) (rdap : Except DSError Bool)
    (now : Nat) (st0 : ApiState) : DomainSaleResponse × ApiState :=
  let st := updateTtl options st0
  let response : DomainSaleResponse := { domain := domain }
  -- cached DNS lookup (`_lookup_txt_records`, key `dns:<domain>`)
  let (lookupRes, dnsCache1, dnsInvoked) :=
    cachedCall st.dnsCache ("dns:" ++ domain)
      (lookup_for_sale_record domain dns) now
  let st1 : ApiState :=
    { st with dnsCache := dnsCache1,
              dnsCalls := st.dnsCalls + (if dnsInvoked then 1 else 0) }
  match lookupRes with
  | .error e => ({ response with errors := [apiCatch e] }, st1)
  | .ok (txt_records, sources) =>
    let (record_data, errs) := recordLoop today none [] txt_records
    if ¬ dictTruthy record_data then
      ({ response with errors := errs }, st1)
    else
      let entries := record_data.getD []
      if options.enable_rdap_check then
        -- cached RDAP check (`_check_rdap_status`, key `rdap:<domain>`)
        let (rdapRes, rdapCache1, rdapInvoked) :=
          cachedCall st1.rdapCache ("rdap:" ++ domain) rdap now
        let st2 : ApiState :=
          { st1 with rdapCache := rdapCache1,
                     rdapCalls := st1.rdapCalls + (if rdapInvoked then 1 else 0) }
        match rdapRes with
        | .error e =>
            ({ response with
                errors := errs ++ ["RDAP check failed: " ++ e.msg] }, st2)
        | .ok b =>
          if b then
            let sources2 := sources ++ ["rdap"]
            let st3 : ApiState :=
              { st2 with dnsCache :=
                  appendRdapInCache st2.dnsCache ("dns:" ++ domain) }
            (fillSale response entries errs sources2, st3)
          else
            ({ response with errors := errs }, st2)
      else
        (fillSale response entries errs sources, st1)

/-! ## Theorems -/

/-! ### C1 — scheme validation -/

/-- C1.  The claim is FALSE as stated: it demands `FieldValidation` for a
`url` whose scheme is `HTTPS` (uppercase), but `urllib.parse.urlparse`
lowercases the scheme before `_validate_url` compares it with the
allow-list, so a record carrying `url = "HTTPS://example.com"` — whose
written scheme `HTTPS` is not exactly the lowercase string `https` —
validates without any exception. -/
theorem c1_uppercase_scheme_counterexample :
    extract_and_validate_record ⟨2025, 6, 1⟩
      "v=FORSALE1;\x7b\"v\":\"1\",\"price\":\"USD:1000\",\"url\":\"HTTPS://example.com\",\"contact\":\"mailto:owner@example.com\"\x7d" =
      Except.ok (some [("v", PyJson.str "1"), ("price", PyJson.str "USD:1000"),
        ("url", PyJson.str "HTTPS://example.com"),
        ("contact", PyJson.str "mailto:owner@example.com")]) := by
  decide

/-- C1 (amended).  Scheme comparison happens on the output of `urlparse`,
which lowercases the scheme: every `url` whose PARSED scheme is not
`https` is rejected by `_validate_url` with `FieldValidationError` (this
still covers `http`, `javascript`, `data`, and URLs on which `urlparse`
itself raises), and every `contact` whose parsed scheme is not `mailto`
is rejected by `_validate_contact` with `FieldValidationError`; `HTTPS`
and `MAILTO` however normalize to the allowed schemes and pass. -/
theorem c1_scheme_closure (url contact : String)
    (hu : urlSchemeOf url ≠ some "https")
    (hc : urlSchemeOf contact ≠ some "mailto") :
    (∃ m, validate_url url = Except.error (DSError.fieldValidation m)) ∧
    (∃ m, validate_contact contact = Except.error (DSError.fieldValidation m)) := by
  constructor
  · have hs : ∀ p, urlparseModel url = Except.ok p → p.scheme ≠ "https" := by
      intro p hp he
      apply hu
      unfold urlSchemeOf
      rw [hp]
      show some p.scheme = some "https"
      rw [he]
    unfold validate_url
    cases h : urlparseModel url with
    | error m => exact ⟨"Invalid URL: " ++ m, rfl⟩
    | ok p =>
      have h1 : ALLOWED_URL_SCHEMES.contains p.scheme = false := by
        simp [ALLOWED_URL_SCHEMES, hs p h]
      have hcond : ¬ (ALLOWED_URL_SCHEMES.contains p.scheme = true) := by
        rw [h1]; exact Bool.false_ne_true
      exact ⟨"Invalid URL: Invalid URL scheme: " ++ p.scheme ++
        ". Must be one of: https", by dsimp only; rw [if_pos hcond]⟩
  · have hs : ∀ p, urlparseModel contact = Except.ok p → p.scheme ≠ "mailto" := by
      intro p hp he
      apply hc
      unfold urlSchemeOf
      rw [hp]
      show some p.scheme = some "mailto"
      rw [he]
    unfold validate_contact
    cases h : urlparseModel contact with
    | error m => exact ⟨"Invalid contact: " ++ m, rfl⟩
    | ok p =>
      have h1 : ALLOWED_CONTACT_SCHEMES.contains p.scheme = false := by
        simp [ALLOWED_CONTACT_SCHEMES, hs p h]
      have hcond : ¬ (ALLOWED_CONTACT_SCHEMES.contains p.scheme = true) := by
        rw [h1]; exact Bool.false_ne_true
      exact ⟨"Invalid contact: Invalid contact scheme: " ++ p.scheme ++
        ". Must be one of: mailto", by dsimp only; rw [if_pos hcond]⟩

/-- C1 witness: at the phishing schemes named by the spec the amended
theorem applies and produces `FieldValidationError`. -/
theorem c1_scheme_closure_witness :
    (∃ m, validate_url "javascript:alert(1)" =
      Except.error (DSError.fieldValidation m)) ∧
    (∃ m, validate_contact "tel:123" =
      Except.error (DSError.fieldValidation m)) :=
  ⟨(c1_scheme_closure "javascript:alert(1)" "tel:123" (by decide) (by decide)).1,
   (c1_scheme_closure "javascript:alert(1)" "tel:123" (by decide) (by decide)).2⟩

/-! ### C4 — strict JSON -/

/-- C4.  The claim is FALSE as stated: it demands `SchemaValidation` for
duplicate keys, but CPython's `json.loads` silently keeps the last
occurrence of a repeated key, so this in-budget record with a duplicated
`"v"` key validates without any exception. -/
theorem c4_duplicate_keys_counterexample :
    extract_and_validate_record ⟨2025, 6, 1⟩
      "v=FORSALE1;\x7b\"v\":\"0\",\"v\":\"1\",\"price\":\"USD:1000\",\"url\":\"https://example.com\",\"contact\":\"mailto:owner@example.com\"\x7d" =
      Except.ok (some [("v", PyJson.str "1"), ("price", PyJson.str "USD:1000"),
        ("url", PyJson.str "https://example.com"),
        ("contact", PyJson.str "mailto:owner@example.com")]) := by
  decide

/-- C4 (amended).  For candidates that pass the size and version-tag
gates, every `json.loads` failure (in particular trailing garbage) and
every non-object JSON root is re-raised as `SchemaValidationError`;
duplicate keys are NOT an error — the parser keeps the last occurrence. -/
theorem c4_strict_json (today : PyDate) (txt : String)
    (hsize : ¬ utf8Len txt > MAX_TXT_SIZE)
    (htag : pyStartswith txt VERSION_TAG = true) :
    (∀ m, pyJsonLoads (pyDrop txt VERSION_TAG.data.length) = Except.error m →
      extract_and_validate_record today txt =
        Except.error (DSError.schemaValidation ("Failed to parse JSON content: " ++ m))) ∧
    (∀ v, pyJsonLoads (pyDrop txt VERSION_TAG.data.length) = Except.ok v →
      (∀ es, v ≠ PyJson.obj es) →
      extract_and_validate_record today txt =
        Except.error (DSError.schemaValidation "Record must be a JSON object")) := by
  constructor
  · intro m hm
    unfold extract_and_validate_record
    rw [if_neg hsize, if_neg (not_not_intro htag), hm]
  · intro v hv hobj
    have hschema : validate_schema v =
        Except.error (DSError.schemaValidation "Record must be a JSON object") := by
      cases v with
      | obj es => exact absurd rfl (hobj es)
      | null => rfl
      | bool b => rfl
      | int n => rfl
      | float l => rfl
      | str s => rfl
      | arr l => rfl
    unfold extract_and_validate_record
    rw [if_neg hsize, if_neg (not_not_intro htag), hv]
    show (match validate_schema v with
      | Except.error e => Except.error e
      | Except.ok entries =>
        match validate_fields today entries with
        | Except.error e => Except.error e
        | Except.ok _ => Except.ok (some entries)) = _
    rw [hschema]

/-- C4 witness: trailing garbage after the JSON value and an array root
both yield `SchemaValidationError` through the amended theorem. -/
theorem c4_strict_json_witness :
    extract_and_validate_record ⟨2025, 6, 1⟩ "v=FORSALE1;\x7b\x7d 5" =
      Except.error (DSError.schemaValidation
        "Failed to parse JSON content: Extra data") ∧
    extract_and_validate_record ⟨2025, 6, 1⟩ "v=FORSALE1;[1]" =
      Except.error (DSError.schemaValidation "Record must be a JSON object") :=
  ⟨(c4_strict_json ⟨2025, 6, 1⟩ "v=FORSALE1;\x7b\x7d 5" (by decide) (by decide)).1
      "Extra data" (by decide),
   (c4_strict_json ⟨2025, 6, 1⟩ "v=FORSALE1;[1]" (by decide) (by decide)).2
      (PyJson.arr [PyJson.int 1]) (by decide)
      (fun es h => PyJson.noConfusion h)⟩

/-! ### C7 — cache expiry and failure non-caching -/

/-- Keys of the backing association list.  A Python `dict` has unique
keys, so every cache state reachable in the source satisfies
`cacheKeysNodup`. -/
def cacheKeys {α : Type} (l : List (String × α × Nat)) : List String :=
  l.map (fun p => p.1)

theorem cacheFind_eq_none_of_not_mem {α : Type}
    (l : List (String × α × Nat)) (k : String) (h : k ∉ cacheKeys l) :
    cacheFind l k = none := by
  induction l with
  | nil => rfl
  | cons hd tl ih =>
    obtain ⟨k0, v, e⟩ := hd
    simp only [cacheKeys, List.map_cons, List.mem_cons, not_or] at h
    unfold cacheFind
    rw [if_neg (fun he => h.1 he.symm)]
    exact ih (by simpa [cacheKeys] using h.2)

theorem cacheFind_cacheDel {α : Type} (l : List (String × α × Nat))
    (k : String) (hnd : (cacheKeys l).Nodup) :
    cacheFind (cacheDel l k) k = none := by
  induction l with
  | nil => rfl
  | cons hd tl ih =>
    obtain ⟨k0, v, e⟩ := hd
    simp only [cacheKeys, List.map_cons, List.nodup_cons] at hnd
    unfold cacheDel
    by_cases h : k0 = k
    · rw [if_pos h]
      subst h
      exact cacheFind_eq_none_of_not_mem tl k0 hnd.1
    · rw [if_neg h]
      unfold cacheFind
      rw [if_neg h]
      exact ih hnd.2

/-- After a miss, the resulting cache state holds no entry for the key. -/
theorem get_miss_no_entry {α : Type} (c : PyCache α) (key : String)
    (now : Nat) (hnd : (cacheKeys c.entries).Nodup)
    (hmiss : (c.get key now).1 = none) :
    cacheFind ((c.get key now).2).entries key = none := by
  unfold PyCache.get at hmiss ⊢
  cases hfind : cacheFind c.entries key with
  | none =>
    dsimp only
    exact hfind
  | some ve =>
    obtain ⟨v, expiry⟩ := ve
    rw [hfind] at hmiss
    dsimp only at hmiss ⊢
    by_cases hnow : now < expiry
    · rw [if_pos hnow] at hmiss
      exact absurd hmiss (by simp)
    · rw [if_neg hnow]
      exact cacheFind_cacheDel c.entries key hnd

/-- A wrapper call on a cache without the key invokes the function. -/
theorem cachedCall_invokes_of_no_entry {α : Type} (c : PyCache α)
    (key : String) (thunk : Except DSError α) (now : Nat)
    (h : cacheFind c.entries key = none) :
    (cachedCall c key thunk now).2.2 = true := by
  unfold cachedCall PyCache.get
  rw [h]
  cases thunk <;> rfl

/-- C7.  (a) A `Cache.get` performed at or after the stored expiry
instant is a miss and deletes the entry.  (b) When the read misses and
the wrapped function raises, the `cached` wrapper propagates the
exception, stores nothing for the key, and a subsequent call through the
wrapper invokes the underlying function again. -/
theorem c7_cache_expiry_and_no_failure_caching {α : Type}
    (c : PyCache α) (key : String) (v : α) (expiry now : Nat) (e : DSError)
    (hnd : (cacheKeys c.entries).Nodup) :
    (cacheFind c.entries key = some (v, expiry) → expiry ≤ now →
      (c.get key now).1 = none ∧
      cacheFind ((c.get key now).2).entries key = none) ∧
    ((c.get key now).1 = none →
      (cachedCall c key (Except.error e) now).1 = Except.error e ∧
      cacheFind ((cachedCall c key (Except.error e) now).2.1).entries key =
        none ∧
      ∀ thunk2 : Except DSError α,
        (cachedCall ((cachedCall c key (Except.error e) now).2.1) key thunk2
          now).2.2 = true) := by
  constructor
  · intro hfind hexp
    have hmiss : (c.get key now).1 = none := by
      unfold PyCache.get
      rw [hfind]
      dsimp only
      rw [if_neg (Nat.not_lt.mpr hexp)]
    exact ⟨hmiss, get_miss_no_entry c key now hnd hmiss⟩
  · intro hmiss
    have hcc : cachedCall c key (Except.error e) now =
        (Except.error e, (c.get key now).2, true) := by
      unfold cachedCall
      cases hget : c.get key now with
      | mk fst snd =>
        rw [hget] at hmiss
        simp only at hmiss
        subst hmiss
        rfl
    have hnone : cacheFind ((cachedCall c key (Except.error e) now).2.1).entries
        key = none := by
      rw [hcc]
      exact get_miss_no_entry c key now hnd hmiss
    refine ⟨by rw [hcc], hnone, ?_⟩
    intro thunk2
    exact cachedCall_invokes_of_no_entry _ key thunk2 now hnone

/-- C7 witness: a concrete one-entry cache read at its expiry instant,
with a failing thunk. -/
theorem c7_witness :
    ((PyCache.get ⟨300, [("k", 42, 5)]⟩ "k" 5).1 = none ∧
      cacheFind ((PyCache.get (α := Nat) ⟨300, [("k", 42, 5)]⟩ "k" 5).2).entries
        "k" = none) ∧
    ((cachedCall (α := Nat) ⟨300, [("k", 42, 5)]⟩ "k"
        (Except.error (DSError.rdapError "boom")) 5).1 =
      Except.error (DSError.rdapError "boom")) :=
  ⟨(c7_cache_expiry_and_no_failure_caching ⟨300, [("k", 42, 5)]⟩ "k" 42 5 5
      (DSError.rdapError "boom") (by decide)).1 (by decide) (by decide),
   ((c7_cache_expiry_and_no_failure_caching ⟨300, [("k", 42, 5)]⟩ "k" 42 5 5
      (DSError.rdapError "boom") (by decide)).2 (by decide)).1⟩

/-! ### C6 — HTML renderer escaping -/

theorem countP_escapeChar (c : Char) :
    (escapeChar c).countP isMarkupChar = 0 := by
  unfold escapeChar
  split_ifs with h1 h2 h3 h4 h5
  · decide
  · decide
  · decide
  · decide
  · decide
  · simp [List.countP_cons, List.countP_nil, isMarkupChar, h2, h3, h4, h5]

theorem countP_escapeList (cs : List Char) :
    (escapeList cs).countP isMarkupChar = 0 := by
  induction cs with
  | nil => rfl
  | cons c rest ih =>
    unfold escapeList
    rw [List.countP_append, countP_escapeChar, ih]

theorem markupCount_escape (s : String) : markupCount (html_escape s) = 0 :=
  countP_escapeList s.data

theorem markupCount_append (a b : String) :
    markupCount (a ++ b) = markupCount a + markupCount b := by
  cases a with
  | mk da =>
    cases b with
    | mk db =>
      show (da ++ db).countP isMarkupChar = _
      exact List.countP_append ..

/-- Sum of per-line markup counts. -/
def msum (ls : List String) : Nat := (ls.map markupCount).sum

theorem markupCount_joinLines (ls : List String) :
    markupCount (joinLines ls) = msum ls := by
  induction ls with
  | nil => rfl
  | cons l tl ih =>
    cases tl with
    | nil => simp [joinLines, msum]
    | cons l2 tl2 =>
      show markupCount (l ++ "\n" ++ joinLines (l2 :: tl2)) = _
      rw [markupCount_append, markupCount_append, ih]
      have hn : markupCount "\n" = 0 := by decide
      simp [msum, hn]

theorem msum_append (a b : List String) : msum (a ++ b) = msum a + msum b := by
  simp [msum]

theorem msum_domainLines (d : Option String) :
    msum (domainLines (d.map fun _ => "x")) = msum (domainLines d) := by
  cases d with
  | none => rfl
  | some v =>
    show msum ["<h2>Domain for Sale: " ++ html_escape "x" ++ "</h2>"] =
      msum ["<h2>Domain for Sale: " ++ html_escape v ++ "</h2>"]
    simp [msum, markupCount_append, markupCount_escape]

theorem msum_priceLines (p : Option String) :
    msum (priceLines (if truthy p then some "x" else none)) =
      msum (priceLines p) := by
  cases hp : truthy p with
  | false =>
    show msum (priceLines none) = msum (priceLines p)
    unfold priceLines
    rw [hp]
    rfl
  | true =>
    show msum (priceLines (some "x")) = msum (priceLines p)
    unfold priceLines
    rw [hp]
    simp [truthy, msum, markupCount_append, markupCount_escape]

theorem msum_urlLines (u : Option String) :
    msum (urlLines (if truthy u then some "x" else none)) =
      msum (urlLines u) := by
  cases hu : truthy u with
  | false =>
    show msum (urlLines none) = msum (urlLines u)
    unfold urlLines
    rw [hu]
    rfl
  | true =>
    show msum (urlLines (some "x")) = msum (urlLines u)
    unfold urlLines
    rw [hu]
    simp [truthy, msum, markupCount_append, markupCount_escape]

theorem msum_expiresLines (e : Option String) :
    msum (expiresLines (if truthy e then some "x" else none)) =
      msum (expiresLines e) := by
  cases he : truthy e with
  | false =>
    show msum (expiresLines none) = msum (expiresLines e)
    unfold expiresLines
    rw [he]
    rfl
  | true =>
    show msum (expiresLines (some "x")) = msum (expiresLines e)
    unfold expiresLines
    rw [he]
    simp [truthy, msum, markupCount_append, markupCount_escape]

theorem msum_contactLines (c : Option String) :
    msum (contactLines (if truthy c then
      (if pyStartswith (html_escape (c.getD "")) "mailto:" then some "mailto:x"
       else some "x") else none)) = msum (contactLines c) := by
  cases hc : truthy c with
  | false =>
    show msum (contactLines none) = msum (contactLines c)
    unfold contactLines
    rw [hc]
    rfl
  | true =>
    cases hm : pyStartswith (html_escape (c.getD "")) "mailto:" with
    | true =>
      show msum (contactLines (some "mailto:x")) = msum (contactLines c)
      unfold contactLines
      dsimp only
      rw [hc, hm]
      have hx : pyStartswith (html_escape ((some ("mailto:x" : String)).getD ""))
          "mailto:" = true := by decide
      rw [show truthy (some "mailto:x") = true from rfl, hx]
      simp [msum, markupCount_append, markupCount_escape]
    | false =>
      show msum (contactLines (some "x")) = msum (contactLines c)
      unfold contactLines
      dsimp only
      rw [hc, hm]
      have hx : pyStartswith (html_escape ((some ("x" : String)).getD ""))
          "mailto:" = false := by decide
      rw [show truthy (some "x") = true from rfl, hx]
      simp [msum, markupCount_append, markupCount_escape]

/-- C6.  Every interpolated field of the HTML renderer goes through
`html.escape(…, quote=True)`, whose image contains no `<`, `>`, `"` or
the single quote; consequently the census of markup-structural characters of the whole
document depends only on the SHAPE of the input (which optional fields
are present and whether the contact is a `mailto:` link), never on the
interpolated values — no input string can open a tag, close one, or
escape a quoted attribute, so no element name, attribute name or
script/event-handler position can come from an input.  The same holds for
`render_error`. -/
theorem c6_renderer_escapes_all_fields (info : SaleInfo) (s : String) :
    markupCount (html_escape s) = 0 ∧
    markupCount (render_sale_info info) =
      markupCount (render_sale_info (eraseValues info)) ∧
    markupCount (render_error s) = markupCount (render_error "x") := by
  refine ⟨markupCount_escape s, ?_, ?_⟩
  · unfold render_sale_info
    rw [markupCount_joinLines, markupCount_joinLines]
    show msum (domainLines info.domain ++ _ ++ priceLines info.price ++
        contactLines info.contact ++ urlLines info.url ++
        expiresLines info.expires ++ _) =
      msum (domainLines (eraseValues info).domain ++ _ ++
        priceLines (eraseValues info).price ++
        contactLines (eraseValues info).contact ++
        urlLines (eraseValues info).url ++
        expiresLines (eraseValues info).expires ++ _)
    have hd : (eraseValues info).domain = info.domain.map fun _ => "x" := rfl
    have hp : (eraseValues info).price =
        (if truthy info.price then some "x" else none) := rfl
    have hco : (eraseValues info).contact = (if truthy info.contact then
        (if pyStartswith (html_escape (info.contact.getD "")) "mailto:" then
          some "mailto:x" else some "x") else none) := rfl
    have hu : (eraseValues info).url =
        (if truthy info.url then some "x" else none) := rfl
    have he : (eraseValues info).expires =
        (if truthy info.expires then some "x" else none) := rfl
    rw [hd, hp, hco, hu, he]
    rw [msum_append, msum_append, msum_append, msum_append, msum_append,
        msum_append, msum_append, msum_append, msum_append, msum_append,
        msum_append, msum_append]
    rw [msum_domainLines, msum_priceLines, msum_contactLines, msum_urlLines,
        msum_expiresLines]
  · unfold render_error
    rw [markupCount_append, markupCount_append, markupCount_append,
        markupCount_append, markupCount_escape, markupCount_escape]

/-! ### Path equations for `get_domain_sale_status` -/

/-- DNS stage raised: the exception is caught at the API boundary and
recorded; everything else keeps its constructor default. -/
theorem api_dns_error_eq (domain : String) (options : DomainSaleOptions)
    (today : PyDate) (dns : DnsOutcome) (rdap : Except DSError Bool)
    (now : Nat) (st : ApiState) (e : DSError)
    (h : (cachedCall (updateTtl options st).dnsCache ("dns:" ++ domain)
        (lookup_for_sale_record domain dns) now).1 = Except.error e) :
    (get_domain_sale_status domain options today dns rdap now st).1 =
      { domain := domain, errors := [apiCatch e] } := by
  unfold get_domain_sale_status
  dsimp only
  rw [h]

/-- DNS stage returned, but no record passed validation (or none was
truthy): early return with the accumulated per-record errors. -/
theorem api_no_record_eq (domain : String) (options : DomainSaleOptions)
    (today : PyDate) (dns : DnsOutcome) (rdap : Except DSError Bool)
    (now : Nat) (st : ApiState) (txts srcs : List String)
    (h : (cachedCall (updateTtl options st).dnsCache ("dns:" ++ domain)
        (lookup_for_sale_record domain dns) now).1 = Except.ok (txts, srcs))
    (h2 : dictTruthy (recordLoop today none [] txts).1 = false) :
    (get_domain_sale_status domain options today dns rdap now st).1 =
      { domain := domain, errors := (recordLoop today none [] txts).2 } := by
  unfold get_domain_sale_status
  dsimp only
  rw [h]
  dsimp only
  have hcond : ¬ dictTruthy (recordLoop today none [] txts).1 = true := by
    rw [h2]; simp
  rw [if_pos hcond]

/-- A validated record with the RDAP check disabled: sale response with
the sources that came from the DNS cache entry. -/
theorem api_rdap_off_eq (domain : String) (options : DomainSaleOptions)
    (today : PyDate) (dns : DnsOutcome) (rdap : Except DSError Bool)
    (now : Nat) (st : ApiState) (txts srcs : List String)
    (h : (cachedCall (updateTtl options st).dnsCache ("dns:" ++ domain)
        (lookup_for_sale_record domain dns) now).1 = Except.ok (txts, srcs))
    (h2 : dictTruthy (recordLoop today none [] txts).1 = true)
    (h3 : options.enable_rdap_check = false) :
    (get_domain_sale_status domain options today dns rdap now st).1 =
      fillSale { domain := domain } ((recordLoop today none [] txts).1.getD [])
        (recordLoop today none [] txts).2 srcs := by
  unfold get_domain_sale_status
  dsimp only
  rw [h]
  dsimp only
  have hcond : ¬ (¬ dictTruthy (recordLoop today none [] txts).1 = true) := by
    rw [h2]; simp
  rw [if_neg hcond, h3]
  rfl

/-- A validated record, RDAP enabled, RDAP stage raised: the error is
appended and the response stays not-for-sale. -/
theorem api_rdap_error_eq (domain : String) (options : DomainSaleOptions)
    (today : PyDate) (dns : DnsOutcome) (rdap : Except DSError Bool)
    (now : Nat) (st : ApiState) (txts srcs : List String) (e : DSError)
    (h : (cachedCall (updateTtl options st).dnsCache ("dns:" ++ domain)
        (lookup_for_sale_record domain dns) now).1 = Except.ok (txts, srcs))
    (h2 : dictTruthy (recordLoop today none [] txts).1 = true)
    (h3 : options.enable_rdap_check = true)
    (h4 : (cachedCall (updateTtl options st).rdapCache ("rdap:" ++ domain)
        rdap now).1 = Except.error e) :
    (get_domain_sale_status domain options today dns rdap now st).1 =
      { domain := domain,
        errors := (recordLoop today none [] txts).2 ++
          ["RDAP check failed: " ++ e.msg] } := by
  unfold get_domain_sale_status
  dsimp only
  rw [h]
  dsimp only
  have hcond : ¬ (¬ dictTruthy (recordLoop today none [] txts).1 = true) := by
    rw [h2]; simp
  rw [if_neg hcond, h3]
  rw [h4]
  rfl

/-- A validated record, RDAP enabled, RDAP check returned `False`: the
response stays not-for-sale and no error is added. -/
theorem api_rdap_false_eq (domain : String) (options : DomainSaleOptions)
    (today : PyDate) (dns : DnsOutcome) (rdap : Except DSError Bool)
    (now : Nat) (st : ApiState) (txts srcs : List String)
    (h : (cachedCall (updateTtl options st).dnsCache ("dns:" ++ domain)
        (lookup_for_sale_record domain dns) now).1 = Except.ok (txts, srcs))
    (h2 : dictTruthy (recordLoop today none [] txts).1 = true)
    (h3 : options.enable_rdap_check = true)
    (h4 : (cachedCall (updateTtl options st).rdapCache ("rdap:" ++ domain)
        rdap now).1 = Except.ok false) :
    (get_domain_sale_status domain options today dns rdap now st).1 =
      { domain := domain, errors := (recordLoop today none [] txts).2 } := by
  unfold get_domain_sale_status
  dsimp only
  rw [h]
  dsimp only
  have hcond : ¬ (¬ dictTruthy (recordLoop today none [] txts).1 = true) := by
    rw [h2]; simp
  rw [if_neg hcond, h3]
  rw [h4]
  rfl

/-- A validated record, RDAP enabled, RDAP check returned `True`: the
sale response carries the cached sources plus the appended `"rdap"`. -/
theorem api_rdap_true_eq (domain : String) (options : DomainSaleOptions)
    (today : PyDate) (dns : DnsOutcome) (rdap : Except DSError Bool)
    (now : Nat) (st : ApiState) (txts srcs : List String)
    (h : (cachedCall (updateTtl options st).dnsCache ("dns:" ++ domain)
        (lookup_for_sale_record domain dns) now).1 = Except.ok (txts, srcs))
    (h2 : dictTruthy (recordLoop today none [] txts).1 = true)
    (h3 : options.enable_rdap_check = true)
    (h4 : (cachedCall (updateTtl options st).rdapCache ("rdap:" ++ domain)
        rdap now).1 = Except.ok true) :
    (get_domain_sale_status domain options today dns rdap now st).1 =
      fillSale { domain := domain } ((recordLoop today none [] txts).1.getD [])
        (recordLoop today none [] txts).2 (srcs ++ ["rdap"]) := by
  unfold get_domain_sale_status
  dsimp only
  rw [h]
  dsimp only
  have hcond : ¬ (¬ dictTruthy (recordLoop today none [] txts).1 = true) := by
    rw [h2]; simp
  rw [if_neg hcond, h3]
  rw [h4]
  rfl

/-- Exhaustive shape analysis of the response of a single API call. -/
theorem api_response_cases (domain : String) (options : DomainSaleOptions)
    (today : PyDate) (dns : DnsOutcome) (rdap : Except DSError Bool)
    (now : Nat) (st : ApiState) :
    (∃ e, (get_domain_sale_status domain options today dns rdap now st).1 =
      { domain := domain, errors := [apiCatch e] }) ∨
    (∃ txts, (get_domain_sale_status domain options today dns rdap now st).1 =
      { domain := domain, errors := (recordLoop today none [] txts).2 }) ∨
    (∃ txts srcs,
      (get_domain_sale_status domain options today dns rdap now st).1 =
        fillSale { domain := domain }
          ((recordLoop today none [] txts).1.getD [])
          (recordLoop today none [] txts).2 srcs ∧
      options.enable_rdap_check = false ∧
      (cachedCall (updateTtl options st).dnsCache ("dns:" ++ domain)
        (lookup_for_sale_record domain dns) now).1 = Except.ok (txts, srcs)) ∨
    (∃ txts, ∃ e : DSError,
      (get_domain_sale_status domain options today dns rdap now st).1 =
      { domain := domain, errors := (recordLoop today none [] txts).2 ++
        ["RDAP check failed: " ++ e.msg] }) ∨
    (∃ txts srcs,
      (get_domain_sale_status domain options today dns rdap now st).1 =
        fillSale { domain := domain }
          ((recordLoop today none [] txts).1.getD [])
          (recordLoop today none [] txts).2 (srcs ++ ["rdap"]) ∧
      options.enable_rdap_check = true ∧
      (cachedCall (updateTtl options st).rdapCache ("rdap:" ++ domain)
        rdap now).1 = Except.ok true ∧
      (cachedCall (updateTtl options st).dnsCache ("dns:" ++ domain)
        (lookup_for_sale_record domain dns) now).1 = Except.ok (txts, srcs)) := by
  cases hres : (cachedCall (updateTtl options st).dnsCache ("dns:" ++ domain)
      (lookup_for_sale_record domain dns) now).1 with
  | error e =>
    exact Or.inl ⟨e, api_dns_error_eq domain options today dns rdap now st e hres⟩
  | ok v =>
    obtain ⟨txts, srcs⟩ := v
    cases htr : dictTruthy (recordLoop today none [] txts).1 with
    | false =>
      exact Or.inr (Or.inl ⟨txts,
        api_no_record_eq domain options today dns rdap now st txts srcs hres htr⟩)
    | true =>
      cases hen : options.enable_rdap_check with
      | false =>
        exact Or.inr (Or.inr (Or.inl ⟨txts, srcs,
          api_rdap_off_eq domain options today dns rdap now st txts srcs hres
            htr hen, rfl, rfl⟩))
      | true =>
        cases hrd : (cachedCall (updateTtl options st).rdapCache
            ("rdap:" ++ domain) rdap now).1 with
        | error e =>
          exact Or.inr (Or.inr (Or.inr (Or.inl ⟨txts, e,
            api_rdap_error_eq domain options today dns rdap now st txts srcs e
              hres htr hen hrd⟩)))
        | ok b =>
          cases b with
          | false =>
            exact Or.inr (Or.inl ⟨txts,
              api_rdap_false_eq domain options today dns rdap now st txts srcs
                hres htr hen hrd⟩)
          | true =>
            exact Or.inr (Or.inr (Or.inr (Or.inr ⟨txts, srcs,
              api_rdap_true_eq domain options today dns rdap now st txts srcs
                hres htr hen hrd, rfl, rfl, rfl⟩)))

/-! ### TTL plumbing (for C10) -/

theorem ttl_get {α : Type} (c : PyCache α) (k : String) (n : Nat) :
    ((PyCache.get c k n).2).ttl = c.ttl := by
  unfold PyCache.get
  cases cacheFind c.entries k with
  | none => rfl
  | some ve =>
    obtain ⟨v, e⟩ := ve
    dsimp only
    split <;> rfl

theorem ttl_cachedCall {α : Type} (c : PyCache α) (k : String)
    (t : Except DSError α) (n : Nat) :
    ((cachedCall c k t n).2.1).ttl = c.ttl := by
  unfold cachedCall
  rcases hget : PyCache.get c k n with ⟨o, c1⟩
  have hc1 : c1.ttl = c.ttl := by
    have := ttl_get c k n
    rw [hget] at this
    exact this
  cases o with
  | some v => exact hc1
  | none =>
    cases t with
    | error e => exact hc1
    | ok v => exact hc1

theorem ttl_appendRdap (c : PyCache (List String × List String))
    (k : String) : (appendRdapInCache c k).ttl = c.ttl := rfl

/-- Both cache TTLs after a call are exactly what `updateTtl` set at the
top of the call: no later step touches them. -/
theorem api_ttl_preserved (domain : String) (options : DomainSaleOptions)
    (today : PyDate) (dns : DnsOutcome) (rdap : Except DSError Bool)
    (now : Nat) (st : ApiState) :
    ((get_domain_sale_status domain options today dns rdap now st).2).dnsCache.ttl =
      (updateTtl options st).dnsCache.ttl ∧
    ((get_domain_sale_status domain options today dns rdap now st).2).rdapCache.ttl =
      (updateTtl options st).rdapCache.ttl := by
  unfold get_domain_sale_status
  dsimp only
  constructor
  · split
    · exact ttl_cachedCall ..
    · split
      · exact ttl_cachedCall ..
      · split
        · split
          · exact ttl_cachedCall ..
          · split
            · dsimp only
              rw [ttl_appendRdap]
              exact ttl_cachedCall ..
            · exact ttl_cachedCall ..
        · exact ttl_cachedCall ..
  · split
    · rfl
    · split
      · rfl
      · split
        · split
          · exact ttl_cachedCall ..
          · split
            · exact ttl_cachedCall ..
            · exact ttl_cachedCall ..
        · rfl

/-! ### C2 — never throws, transport errors recorded -/

/-- C2.  `get_domain_sale_status` catches `DNSSECValidationError`,
`TimeoutError` and every remaining `Exception` at its outer boundary, so
in the embedding it is a TOTAL function into `DomainSaleResponse` (no
`Except` in its result type): every DNS-stage exception — DNSSEC
validation failure, timeout, or any unexpected error — becomes the single
entry of `Response.errors` via `apiCatch`, and an RDAP-stage exception is
appended as `RDAP check failed: …`, with `for_sale` left `False`. -/
theorem c2_never_throws (domain : String) (options : DomainSaleOptions)
    (today : PyDate) (dns : DnsOutcome) (rdap : Except DSError Bool)
    (now : Nat) (st : ApiState) :
    (get_domain_sale_status domain options today dns rdap now st).1.domain =
      domain ∧
    (∀ e : DSError,
      (cachedCall (updateTtl options st).dnsCache ("dns:" ++ domain)
        (lookup_for_sale_record domain dns) now).1 = Except.error e →
      (get_domain_sale_status domain options today dns rdap now st).1 =
        { domain := domain, errors := [apiCatch e] }) ∧
    (∀ (txts srcs : List String) (e : DSError),
      (cachedCall (updateTtl options st).dnsCache ("dns:" ++ domain)
        (lookup_for_sale_record domain dns) now).1 = Except.ok (txts, srcs) →
      dictTruthy (recordLoop today none [] txts).1 = true →
      options.enable_rdap_check = true →
      (cachedCall (updateTtl options st).rdapCache ("rdap:" ++ domain)
        rdap now).1 = Except.error e →
      (get_domain_sale_status domain options today dns rdap now st).1 =
        { domain := domain, errors := (recordLoop today none [] txts).2 ++
          ["RDAP check failed: " ++ e.msg] }) := by
  refine ⟨?_, ?_, ?_⟩
  · rcases api_response_cases domain options today dns rdap now st with
      ⟨e, hr⟩ | ⟨txts, hr⟩ | ⟨txts, srcs, hr, _, _⟩ | ⟨txts, e, hr⟩ |
      ⟨txts, srcs, hr, _, _, _⟩ <;> rw [hr] <;> rfl
  · intro e h
    exact api_dns_error_eq domain options today dns rdap now st e h
  · intro txts srcs e h htr hen hrd
    exact api_rdap_error_eq domain options today dns rdap now st txts srcs e
      h htr hen hrd

/-- C2 witness: a timed-out DNS query is recorded in `errors`, not
raised. -/
theorem c2_never_throws_witness :
    (get_domain_sale_status "w.com" {} ⟨2025, 6, 1⟩ DnsOutcome.timedOut
        (Except.ok false) 0 initialApiState).1 =
      { domain := "w.com",
        errors := ["Timeout: DNS query for w.com timed out"] } :=
  (c2_never_throws "w.com" {} ⟨2025, 6, 1⟩ DnsOutcome.timedOut
      (Except.ok false) 0 initialApiState).2.1
    (DSError.timeout "DNS query for w.com timed out") (by decide)

/-! ### C3 — RDAP corroboration policy -/

/-- The canonical valid record of the repository's own test-suite. -/
def sampleRecord : String :=
  "v=FORSALE1;\x7b\"v\":\"1\",\"price\":\"USD:1000\",\"url\":\"https://example.com\",\"contact\":\"mailto:owner@example.com\"\x7d"

/-- C3.  With `enable_rdap_check=True`: `for_sale=True` requires both a
validated DNS record and an RDAP check result of `True`, and then
`"rdap"` is an element of the (list-valued) `source`; when the RDAP check
returns `False` after a record validated, the response is `for_sale=False`
with the errors exactly those accumulated by the validation loop — no
error is added for the disagreement. -/
theorem c3_rdap_policy (domain : String) (options : DomainSaleOptions)
    (today : PyDate) (dns : DnsOutcome) (rdap : Except DSError Bool)
    (now : Nat) (st : ApiState)
    (h3 : options.enable_rdap_check = true) :
    ((get_domain_sale_status domain options today dns rdap now st).1.for_sale =
        true →
      (cachedCall (updateTtl options st).rdapCache ("rdap:" ++ domain)
        rdap now).1 = Except.ok true ∧
      ∃ l, (get_domain_sale_status domain options today dns rdap now st).1.source =
        Sum.inr l ∧ "rdap" ∈ l) ∧
    (∀ txts srcs : List String,
      (cachedCall (updateTtl options st).dnsCache ("dns:" ++ domain)
        (lookup_for_sale_record domain dns) now).1 = Except.ok (txts, srcs) →
      dictTruthy (recordLoop today none [] txts).1 = true →
      (cachedCall (updateTtl options st).rdapCache ("rdap:" ++ domain)
        rdap now).1 = Except.ok false →
      (get_domain_sale_status domain options today dns rdap now st).1.for_sale =
        false ∧
      (get_domain_sale_status domain options today dns rdap now st).1.errors =
        (recordLoop today none [] txts).2) := by
  constructor
  · intro hfs
    rcases api_response_cases domain options today dns rdap now st with
      ⟨e, hr⟩ | ⟨txts, hr⟩ | ⟨txts, srcs, hr, henf, _⟩ | ⟨txts, e, hr⟩ |
      ⟨txts, srcs, hr, _, hrdt, _⟩
    · rw [hr] at hfs
      simp at hfs
    · rw [hr] at hfs
      simp at hfs
    · rw [h3] at henf
      exact absurd henf (by simp)
    · rw [hr] at hfs
      simp at hfs
    · refine ⟨hrdt, srcs ++ ["rdap"], by rw [hr]; rfl, ?_⟩
      simp
  · intro txts srcs h htr hrd
    have heq := api_rdap_false_eq domain options today dns rdap now st txts
      srcs h htr h3 hrd
    rw [heq]
    exact ⟨rfl, rfl⟩

/-- C3 witness: two-source corroboration on the canonical record. -/
theorem c3_rdap_policy_witness :
    (cachedCall (updateTtl { enable_rdap_check := true } initialApiState).rdapCache
        "rdap:example.com" (Except.ok true) 0).1 = Except.ok true ∧
    ∃ l, (get_domain_sale_status "example.com" { enable_rdap_check := true }
        ⟨2025, 6, 1⟩ (DnsOutcome.answers [sampleRecord]) (Except.ok true) 0
        initialApiState).1.source = Sum.inr l ∧ "rdap" ∈ l :=
  (c3_rdap_policy "example.com" { enable_rdap_check := true } ⟨2025, 6, 1⟩
      (DnsOutcome.answers [sampleRecord]) (Except.ok true) 0 initialApiState
      rfl).1 (by decide)

/-! ### C5 — oversized payloads are silently dropped -/

/-- C5.  The claim is FALSE as stated: a DNS answer whose only TXT
payload is 260 bytes produces `for_sale=false` with EMPTY `errors` —
`DNSSecResolver.lookup_for_sale_record` drops oversized strings with
`continue` before the validator (whose `SizeExceeded` gate would fire)
ever sees them, so no `SizeExceeded` error reaches `Response.errors`. -/
theorem c5_oversized_counterexample :
    (get_domain_sale_status "example.com" {} ⟨2025, 6, 1⟩
        (DnsOutcome.answers [String.mk (List.replicate 260 'a')])
        (Except.ok false) 0 initialApiState).1 =
      { domain := "example.com" } := by
  decide

/-- C5 (amended).  When the DNS cache misses and every string in the
answer exceeds 255 encoded bytes, the resolver silently drops them all
and the call returns the all-default response: `for_sale=false` and
`errors=[]`, with no `SizeExceeded` entry. -/
theorem c5_resolver_drops_oversized (domain : String)
    (options : DomainSaleOptions) (today : PyDate)
    (rdap : Except DSError Bool) (now : Nat) (st : ApiState)
    (ss : List String)
    (hmiss : ((updateTtl options st).dnsCache.get ("dns:" ++ domain) now).1 =
      none)
    (hbig : ∀ s ∈ ss, utf8Len s > MAX_TXT_SIZE) :
    (get_domain_sale_status domain options today (DnsOutcome.answers ss)
        rdap now st).1 = { domain := domain } := by
  have hfilter : ss.filter (fun s => ¬ utf8Len s > MAX_TXT_SIZE) = [] := by
    rw [List.filter_eq_nil_iff]
    intro a ha
    simp [hbig a ha]
  have hlk : lookup_for_sale_record domain (DnsOutcome.answers ss) =
      Except.ok ([], ["dns"]) := by
    unfold lookup_for_sale_record
    dsimp only
    rw [hfilter]
  have h : (cachedCall (updateTtl options st).dnsCache ("dns:" ++ domain)
      (lookup_for_sale_record domain (DnsOutcome.answers ss)) now).1 =
      Except.ok ([], ["dns"]) := by
    unfold cachedCall
    rcases hget : (updateTtl options st).dnsCache.get ("dns:" ++ domain) now
      with ⟨o, c1⟩
    rw [hget] at hmiss
    dsimp only at hmiss
    subst hmiss
    rw [hlk]
  have heq := api_no_record_eq domain options today (DnsOutcome.answers ss)
    rdap now st [] ["dns"] h rfl
  rw [heq]
  rfl

/-- C5 witness: the amended theorem at a concrete 300-byte payload. -/
theorem c5_witness :
    (get_domain_sale_status "test.org" {} ⟨2025, 6, 1⟩
        (DnsOutcome.answers [String.mk (List.replicate 300 'b')])
        (Except.ok false) 7 initialApiState).1 = { domain := "test.org" } :=
  c5_resolver_drops_oversized "test.org" {} ⟨2025, 6, 1⟩ (Except.ok false) 7
    initialApiState [String.mk (List.replicate 300 'b')] (by decide)
    (by decide)

/-! ### C8 — cache idempotence is broken by list aliasing -/

def c8_options : DomainSaleOptions := { enable_rdap_check := true }

/-- First call: fresh caches, valid record, RDAP confirms. -/
def c8_call1 : DomainSaleResponse × ApiState :=
  get_domain_sale_status "example.com" c8_options ⟨2025, 6, 1⟩
    (DnsOutcome.answers [sampleRecord]) (Except.ok true) 0 initialApiState

/-- Second call, 10 s later (well inside the 300 s TTL), same inputs. -/
def c8_call2 : DomainSaleResponse × ApiState :=
  get_domain_sale_status "example.com" c8_options ⟨2025, 6, 1⟩
    (DnsOutcome.answers [sampleRecord]) (Except.ok true) 10 c8_call1.2

/-- C8.  The at-most-once part HOLDS (both counters stay at 1 across the
two calls), but the two responses are NOT equal: `sources.append("rdap")`
mutates the very list stored in `dns_cache`, so the second call reads
`["dns","rdap"]` from the cache and appends again, producing
`source=["dns","rdap","rdap"]`. -/
theorem c8_cached_sources_mutation :
    c8_call1.1.source = Sum.inr ["dns", "rdap"] ∧
    c8_call2.1.source = Sum.inr ["dns", "rdap", "rdap"] ∧
    c8_call1.1 ≠ c8_call2.1 ∧
    c8_call2.2.dnsCalls = 1 ∧ c8_call2.2.rdapCalls = 1 := by
  decide

/-! ### C9 — scalar vs list `source` -/

/-- C9.  The claim is FALSE as stated: in the `for_sale=false` outcomes
the response keeps the `DomainSaleResponse.__init__` default, which is
the SCALAR string `"dns"` (the `source = sources` assignment on line 214
of `api.py` is only reached on the for-sale path). -/
theorem c9_scalar_source_counterexample :
    (get_domain_sale_status "x.com" {} ⟨2025, 6, 1⟩ DnsOutcome.noAnswer
        (Except.ok false) 0 initialApiState).1.source = Sum.inl "dns" ∧
    (get_domain_sale_status "x.com" {} ⟨2025, 6, 1⟩ DnsOutcome.noAnswer
        (Except.ok false) 0 initialApiState).1.for_sale = false := by
  decide

/-- C9 (amended).  `source` is a list exactly on the `for_sale=true`
outcomes; every `for_sale=false` outcome carries the scalar default
`"dns"`. -/
theorem c9_source_shape (domain : String) (options : DomainSaleOptions)
    (today : PyDate) (dns : DnsOutcome) (rdap : Except DSError Bool)
    (now : Nat) (st : ApiState) :
    ((get_domain_sale_status domain options today dns rdap now st).1.for_sale =
        false →
      (get_domain_sale_status domain options today dns rdap now st).1.source =
        Sum.inl "dns") ∧
    ((get_domain_sale_status domain options today dns rdap now st).1.for_sale =
        true →
      ∃ l, (get_domain_sale_status domain options today dns rdap now st).1.source =
        Sum.inr l) := by
  rcases api_response_cases domain options today dns rdap now st with
    ⟨e, hr⟩ | ⟨txts, hr⟩ | ⟨txts, srcs, hr, _, _⟩ | ⟨txts, e, hr⟩ |
    ⟨txts, srcs, hr, _, _, _⟩
  · exact ⟨fun _ => by rw [hr], fun hfs => by rw [hr] at hfs; simp at hfs⟩
  · exact ⟨fun _ => by rw [hr], fun hfs => by rw [hr] at hfs; simp at hfs⟩
  · exact ⟨fun hfs => by rw [hr] at hfs; simp [fillSale] at hfs,
      fun _ => ⟨srcs, by rw [hr]; rfl⟩⟩
  · exact ⟨fun _ => by rw [hr], fun hfs => by rw [hr] at hfs; simp at hfs⟩
  · exact ⟨fun hfs => by rw [hr] at hfs; simp [fillSale] at hfs,
      fun _ => ⟨srcs ++ ["rdap"], by rw [hr]; rfl⟩⟩

/-- C9 witness: on the for-sale path with RDAP disabled the source is a
list. -/
theorem c9_source_shape_witness :
    ∃ l, (get_domain_sale_status "example.com" {} ⟨2025, 6, 1⟩
        (DnsOutcome.answers [sampleRecord]) (Except.ok false) 0
        initialApiState).1.source = Sum.inr l :=
  (c9_source_shape "example.com" {} ⟨2025, 6, 1⟩
      (DnsOutcome.answers [sampleRecord]) (Except.ok false) 0
      initialApiState).2 (by decide)

/-! ### C10 — the cache-TTL mutation is sticky -/

theorem updateTtl_of_ne (options : DomainSaleOptions) (st : ApiState)
    (h : options.cache_ttl ≠ DEFAULT_CACHE_TTL) :
    (updateTtl options st).dnsCache.ttl = options.cache_ttl ∧
    (updateTtl options st).rdapCache.ttl = options.cache_ttl := by
  unfold updateTtl
  rw [if_pos h]
  exact ⟨rfl, rfl⟩

theorem updateTtl_of_default (options : DomainSaleOptions) (st : ApiState)
    (h : options.cache_ttl = DEFAULT_CACHE_TTL) :
    updateTtl options st = st := by
  unfold updateTtl
  rw [if_neg (fun hc => hc h)]

/-- C10.  A call with a non-default `cache_ttl` overwrites the TTL of the
module-level `dns_cache` and `rdap_cache` for the rest of the process; a
later call passing the default `300` does NOT restore it, because the
assignment is guarded by `cache_ttl != DEFAULT_CACHE_TTL`. -/
theorem c10_ttl_mutation_sticky (t : Nat) (ht : t ≠ DEFAULT_CACHE_TTL)
    (o1 o2 : DomainSaleOptions) (h1 : o1.cache_ttl = t)
    (h2 : o2.cache_ttl = DEFAULT_CACHE_TTL) (d1 d2 : String)
    (today1 today2 : PyDate) (dns1 dns2 : DnsOutcome)
    (rdap1 rdap2 : Except DSError Bool) (now1 now2 : Nat) (st : ApiState) :
    ((get_domain_sale_status d1 o1 today1 dns1 rdap1 now1 st).2).dnsCache.ttl =
      t ∧
    ((get_domain_sale_status d1 o1 today1 dns1 rdap1 now1 st).2).rdapCache.ttl =
      t ∧
    ((get_domain_sale_status d2 o2 today2 dns2 rdap2 now2
        (get_domain_sale_status d1 o1 today1 dns1 rdap1 now1 st).2).2).dnsCache.ttl =
      t ∧
    ((get_domain_sale_status d2 o2 today2 dns2 rdap2 now2
        (get_domain_sale_status d1 o1 today1 dns1 rdap1 now1 st).2).2).rdapCache.ttl =
      t := by
  have hne : o1.cache_ttl ≠ DEFAULT_CACHE_TTL := by rw [h1]; exact ht
  have hA := api_ttl_preserved d1 o1 today1 dns1 rdap1 now1 st
  have hu := updateTtl_of_ne o1 st hne
  have hd1 : ((get_domain_sale_status d1 o1 today1 dns1 rdap1 now1 st).2).dnsCache.ttl = t := by
    rw [hA.1, hu.1, h1]
  have hr1 : ((get_domain_sale_status d1 o1 today1 dns1 rdap1 now1 st).2).rdapCache.ttl = t := by
    rw [hA.2, hu.2, h1]
  have hB := api_ttl_preserved d2 o2 today2 dns2 rdap2 now2
    (get_domain_sale_status d1 o1 today1 dns1 rdap1 now1 st).2
  rw [updateTtl_of_default o2 _ h2] at hB
  exact ⟨hd1, hr1, by rw [hB.1, hd1], by rw [hB.2, hr1]⟩

/-- C10 witness: TTL 100 sticks across a follow-up call with TTL 300. -/
theorem c10_ttl_mutation_sticky_witness :
    ((get_domain_sale_status "b.com" { cache_ttl := DEFAULT_CACHE_TTL }
        ⟨2025, 6, 1⟩ DnsOutcome.noAnswer (Except.ok false) 1
        (get_domain_sale_status "a.com" { cache_ttl := 100 } ⟨2025, 6, 1⟩
          DnsOutcome.noAnswer (Except.ok false) 0 initialApiState).2).2).dnsCache.ttl =
      100 :=
  (c10_ttl_mutation_sticky 100 (by decide) { cache_ttl := 100 }
      { cache_ttl := DEFAULT_CACHE_TTL } rfl rfl "a.com" "b.com" ⟨2025, 6, 1⟩
      ⟨2025, 6, 1⟩ DnsOutcome.noAnswer DnsOutcome.noAnswer (Except.ok false)
      (Except.ok false) 0 1 initialApiState).2.2.1

end DomainSale
